import Mathlib

/-!
Verification of the reply-notification eligibility and subscription logic
from `h/notification/reply.py`, together with the `User.userid` hybrid
property from `h/accounts/models.py`.

The embedding is shallow: the mutable database session is modelled as an
explicit list of subscription rows, and the external collaborators
(annotation store `storage.fetch_annotation`, user directory
`accounts.get_user`, permission oracle `auth.has_permission`) are fields
of the `Request` structure, mirroring how the Python code reaches them
through the request object.  Nullable Python values are `Option`s.
-/

namespace H

/-- Document metadata attached to an annotation (opaque to this core;
`h.models.Document` in the source). -/
structure Document where
  meta : String
deriving DecidableEq

/-- A user record, as in `h/accounts/models.py`: a username plus an
authority (namespace). -/
structure User where
  username : String
  authority : String
deriving DecidableEq

/-- Embeds the `User.userid` hybrid property of `h/accounts/models.py`
(lines 144-147): `acct:{username}@{authority}`. -/
def User.userid (u : User) : String :=
  "acct:" ++ u.username ++ "@" ++ u.authority

/-- An annotation record, exposing the fields the notification core reads:
`parent_id` (nullable), `userid` (author identity string) and `document`
(nullable document metadata). -/
structure Annot where
  id : String
  parent_id : Option String
  userid : String
  document : Option Document
deriving DecidableEq

/-- A row of the `Subscriptions` table from `h/notification/models.py`:
`uri` (the target user identity), `type` (notification category) and
`active` (opt-in flag). -/
structure Subscriptions where
  uri : String
  type : String
  active : Bool
deriving DecidableEq

/-- The `Notification` namedtuple from `h/notification/reply.py`
(lines 17-37).  Every field of the Python namedtuple may in principle hold
`None`, so each field is an `Option` here; the invariant that a returned
notification is fully populated is proved, not assumed. -/
structure Notification where
  reply : Option Annot
  reply_user : Option User
  parent : Option Annot
  parent_user : Option User
  document : Option Document
deriving DecidableEq

/-- The slice of the pyramid request visible to this core: the request
domain, the database's subscription rows, and the three external
collaborators reached through the request. -/
structure Request where
  domain : String
  fetch_ann : String → Option Annot
  get_user : String → Option User
  has_permission : Annot → String → String → Bool
  subs : List Subscriptions
deriving Inhabited

/-- Embeds the subscription query of `get_notification` (lines 104-106):
`request.db.query(Subscriptions).filter_by(active=True, type='reply',
uri=...).first()`. -/
def find_active_reply_sub (db : List Subscriptions) (uri : String) :
    Option Subscriptions :=
  (db.filter fun s => s.active && s.type == "reply" && s.uri == uri).head?

/-- Embeds `get_notification` of `h/notification/reply.py` (lines 40-110):
the guard sequence deciding whether a reply notification is due, returning
the populated `Notification` when every guard passes and `none` otherwise. -/
def get_notification (request : Request) (ann : Annot) (action : String) :
    Option Notification :=
  -- Only send notifications when new annotations are created
  if action ≠ "create" then none
  else
    match ann.parent_id with
    | none => none
    | some parent_id =>
      -- Now we know we are dealing with a reply
      let reply := ann
      match request.fetch_ann parent_id with
      | none => none
      | some parent =>
        match request.get_user parent.userid with
        | none => none
        | some parent_user =>
          match request.get_user reply.userid with
          | none => none
          | some reply_user =>
            -- Do not notify users about their own replies
            if parent_user = reply_user then none
            -- Do not notify an author who cannot read the reply
            else if ¬ request.has_permission reply parent.userid "read" then
              none
            else
              match reply.document with
              | none => none
              | some _ =>
                match find_active_reply_sub request.subs parent.userid with
                | none => none
                | some _ =>
                  Notification.mk (some reply) (some reply_user)
                    (some parent) (some parent_user) reply.document

/-- Embeds `create_subscription` (lines 114-122): inserts a new row with
the given uri, type `"reply"` and the given active flag; the session is
modelled as the list of rows, `add` as appending. -/
def create_subscription (db : List Subscriptions) (uri : String)
    (active : Bool) : List Subscriptions :=
  db ++ [Subscriptions.mk uri "reply" active]

/-- The `RegistrationEvent`: the registered user together with the domain
of the triggering request. -/
structure RegistrationEvent where
  user : User
  request_domain : String

/-- Embeds `registration_subscriptions` (lines 125-129): builds the uri
`acct:{username}@{request.domain}` and creates an active subscription. -/
def registration_subscriptions (db : List Subscriptions)
    (event : RegistrationEvent) : List Subscriptions :=
  create_subscription db
    ("acct:" ++ event.user.username ++ "@" ++ event.request_domain) true

/-! Concrete sample data used by the witnesses. -/

def aliceId : String := "acct:alice@example.org"

def bobId : String := "acct:bob@example.org"

def alice : User := User.mk "alice" "example.org"

def bob : User := User.mk "bob" "example.org"

def doc0 : Document := Document.mk "http://example.com/page"

def parentAnn : Annot := Annot.mk "p1" none aliceId (some doc0)

def replyAnn : Annot := Annot.mk "r1" (some "p1") bobId (some doc0)

/-- A sample request whose stores make every guard pass. -/
def req0 : Request :=
  Request.mk "example.org"
    (fun i => if i = "p1" then some parentAnn else none)
    (fun u =>
      if u = aliceId then some alice
      else if u = bobId then some bob
      else none)
    (fun _ _ _ => true)
    [Subscriptions.mk aliceId "reply" true]

/-- A request like `req0` whose permission oracle denies everything. -/
def reqNoPerm : Request :=
  Request.mk "example.org"
    (fun i => if i = "p1" then some parentAnn else none)
    (fun u =>
      if u = aliceId then some alice
      else if u = bobId then some bob
      else none)
    (fun _ _ _ => false)
    [Subscriptions.mk aliceId "reply" true]

/-- A request like `req0` whose only reply subscription is inactive. -/
def reqInactive : Request :=
  Request.mk "example.org"
    (fun i => if i = "p1" then some parentAnn else none)
    (fun u =>
      if u = aliceId then some alice
      else if u = bobId then some bob
      else none)
    (fun _ _ _ => true)
    [Subscriptions.mk aliceId "reply" false]

/-- A reply whose author is also the author of the parent annotation. -/
def selfReply : Annot := Annot.mk "r2" (some "p1") aliceId (some doc0)

/-! Helper lemmas shared by the claim theorems. -/

/-- The subscription query returns nothing when no row of the registry is
an active reply subscription for the given uri. -/
theorem find_active_reply_sub_eq_none (db : List Subscriptions) (uri : String)
    (h : ∀ s ∈ db, ¬(s.active = true ∧ s.type = "reply" ∧ s.uri = uri)) :
    find_active_reply_sub db uri = none := by
  unfold find_active_reply_sub
  rw [List.head?_eq_none_iff, List.filter_eq_nil_iff]
  intro s hs
  have hns := h s hs
  simp only [Bool.and_eq_true, beq_iff_eq]
  tauto

/-- The subscription query returns a row when some row of the registry is
an active reply subscription for the given uri. -/
theorem find_active_reply_sub_isSome (db : List Subscriptions) (uri : String)
    (h : ∃ s ∈ db, s.active = true ∧ s.type = "reply" ∧ s.uri = uri) :
    ∃ t, find_active_reply_sub db uri = some t := by
  unfold find_active_reply_sub
  rcases h with ⟨s, hs, ha, ht, hu⟩
  have hmem : s ∈ db.filter
      (fun s => s.active && s.type == "reply" && s.uri == uri) := by
    rw [List.mem_filter]
    exact ⟨hs, by simp [ha, ht, hu]⟩
  cases hh : (db.filter
      (fun s => s.active && s.type == "reply" && s.uri == uri)).head? with
  | some t => exact ⟨t, rfl⟩
  | none =>
    rw [List.head?_eq_none_iff] at hh
    rw [hh] at hmem
    exact absurd hmem (List.not_mem_nil s)

/-- The decision procedure yields nothing whenever the subscription query
for the fetched parent's author comes back empty. -/
theorem gn_none_of_find_none (request : Request) (ann : Annot)
    (action : String) (pid : String) (parent : Annot)
    (h1 : ann.parent_id = some pid)
    (h2 : request.fetch_ann pid = some parent)
    (h3 : find_active_reply_sub request.subs parent.userid = none) :
    get_notification request ann action = none := by
  by_cases ha : action = "create"
  · subst ha
    unfold get_notification
    rw [if_neg (by simp : ¬ ("create" : String) ≠ "create")]
    simp only [h1, h2]
    cases hpu : request.get_user parent.userid with
    | none => rfl
    | some pu =>
      cases hru : request.get_user ann.userid with
      | none => rfl
      | some ru =>
        by_cases hsame : pu = ru
        · simp [hsame]
        · simp only [if_neg hsame]
          split
          · rfl
          · cases hd : ann.document with
            | none => rfl
            | some d => simp only [h3]
  · simp [get_notification, ha]

/-- Left-cancellation of string concatenation. -/
theorem string_prepend_cancel (p s t : String) (h : p ++ s = p ++ t) :
    s = t := by
  have h2 := congrArg String.data h
  simp only [String.data_append] at h2
  exact String.ext (List.append_cancel_left h2)

/-- C9: for every event whose action tag is not the literal string
`"create"`, `get_notification` returns `none`, whatever the state of the
stores. -/
theorem no_notification_unless_create (request : Request) (ann : Annot)
    (action : String) (h : action ≠ "create") :
    get_notification request ann action = none := by
  unfold get_notification
  simp [h]

theorem no_notification_unless_create_witness :
    ("update" : String) ≠ "create" ∧
      get_notification req0 replyAnn "update" = none :=
  ⟨by decide, no_notification_unless_create req0 replyAnn "update" (by decide)⟩

/-- C10: for every `"create"` event, if the annotation's `parent_id` is
null, or the annotation store returns nothing for it (a deleted parent),
then `get_notification` returns `none`. -/
theorem no_notification_without_parent (request : Request) (ann : Annot)
    (h : ann.parent_id = none ∨
      ∃ pid, ann.parent_id = some pid ∧ request.fetch_ann pid = none) :
    get_notification request ann "create" = none := by
  unfold get_notification
  rcases h with h | ⟨pid, h1, h2⟩
  · simp [h]
  · simp [h1, h2]

theorem no_notification_without_parent_witness :
    ((Annot.mk "t1" none bobId (some doc0)).parent_id = none ∨
      ∃ pid, (Annot.mk "t1" none bobId (some doc0)).parent_id = some pid ∧
        req0.fetch_ann pid = none) ∧
      get_notification req0 (Annot.mk "t1" none bobId (some doc0)) "create" =
        none :=
  ⟨Or.inl rfl,
    no_notification_without_parent req0 (Annot.mk "t1" none bobId (some doc0))
      (Or.inl rfl)⟩

/-- C5: the registration handler for username `"carol"` with authority
`"example.org"` (request domain `"example.org"`) appends exactly one
subscription row, with target `acct:carol@example.org`, type `"reply"` and
active `true`, leaving every existing row unchanged. -/
theorem registration_adds_one_reply_sub (db : List Subscriptions) :
    registration_subscriptions db
        (RegistrationEvent.mk (User.mk "carol" "example.org") "example.org") =
      db ++ [Subscriptions.mk "acct:carol@example.org" "reply" true] := rfl

/-- C7: registration is not idempotent: running the handler twice for the
same user and domain, from any registry state, appends two rows with the
same target and the same type. -/
theorem registration_not_idempotent (db : List Subscriptions) (u : User)
    (d : String) :
    registration_subscriptions
        (registration_subscriptions db (RegistrationEvent.mk u d))
        (RegistrationEvent.mk u d) =
      db ++ [Subscriptions.mk ("acct:" ++ u.username ++ "@" ++ d) "reply" true,
             Subscriptions.mk ("acct:" ++ u.username ++ "@" ++ d) "reply" true] := by
  simp [registration_subscriptions, create_subscription]

/-- C2: if the permission oracle denies the query whose actor is the
fetched parent's author identity, whose object is the reply, and whose
action is `"read"`, then `get_notification` returns `none`, whatever the
subscription registry holds. -/
theorem no_notification_without_permission (request : Request) (ann : Annot)
    (action : String) (pid : String) (parent : Annot)
    (h1 : ann.parent_id = some pid)
    (h2 : request.fetch_ann pid = some parent)
    (h3 : request.has_permission ann parent.userid "read" = false) :
    get_notification request ann action = none := by
  by_cases ha : action = "create"
  · subst ha
    unfold get_notification
    rw [if_neg (by simp : ¬ ("create" : String) ≠ "create")]
    simp only [h1, h2]
    cases hpu : request.get_user parent.userid with
    | none => rfl
    | some pu =>
      cases hru : request.get_user ann.userid with
      | none => rfl
      | some ru =>
        by_cases hsame : pu = ru
        · simp [hsame]
        · simp [hsame, h3]
  · simp [get_notification, ha]

theorem no_notification_without_permission_witness :
    replyAnn.parent_id = some "p1" ∧
      reqNoPerm.fetch_ann "p1" = some parentAnn ∧
      reqNoPerm.has_permission replyAnn parentAnn.userid "read" = false ∧
      get_notification reqNoPerm replyAnn "create" = none :=
  ⟨rfl, by decide, rfl,
    no_notification_without_permission reqNoPerm replyAnn "create" "p1"
      parentAnn rfl (by decide) rfl⟩

/-- C3: if the registry has no row that is simultaneously active, of type
`"reply"`, and targeted at the fetched parent's author identity, then
`get_notification` returns `none` — in particular when only an inactive
subscription exists for that target and type. -/
theorem no_notification_without_active_sub (request : Request) (ann : Annot)
    (action : String) (pid : String) (parent : Annot)
    (h1 : ann.parent_id = some pid)
    (h2 : request.fetch_ann pid = some parent)
    (h3 : ∀ s ∈ request.subs,
      ¬(s.active = true ∧ s.type = "reply" ∧ s.uri = parent.userid)) :
    get_notification request ann action = none :=
  gn_none_of_find_none request ann action pid parent h1 h2
    (find_active_reply_sub_eq_none request.subs parent.userid h3)

theorem no_notification_without_active_sub_witness :
    replyAnn.parent_id = some "p1" ∧
      reqInactive.fetch_ann "p1" = some parentAnn ∧
      (∀ s ∈ reqInactive.subs,
        ¬(s.active = true ∧ s.type = "reply" ∧ s.uri = parentAnn.userid)) ∧
      get_notification reqInactive replyAnn "create" = none :=
  ⟨rfl, by decide, by decide,
    no_notification_without_active_sub reqInactive replyAnn "create" "p1"
      parentAnn rfl (by decide) (by decide)⟩

/-- C4: if the reply's author identity equals the parent's author
identity, `get_notification` returns `none`, even when every other guard
would pass. -/
theorem no_notification_for_self_reply (request : Request) (ann : Annot)
    (action : String) (pid : String) (parent : Annot)
    (h1 : ann.parent_id = some pid)
    (h2 : request.fetch_ann pid = some parent)
    (h3 : ann.userid = parent.userid) :
    get_notification request ann action = none := by
  by_cases ha : action = "create"
  · subst ha
    unfold get_notification
    rw [if_neg (by simp : ¬ ("create" : String) ≠ "create")]
    simp only [h1, h2]
    cases hpu : request.get_user parent.userid with
    | none => rfl
    | some pu =>
      simp only [h3, hpu]
      simp
  · simp [get_notification, ha]

theorem no_notification_for_self_reply_witness :
    selfReply.parent_id = some "p1" ∧
      req0.fetch_ann "p1" = some parentAnn ∧
      selfReply.userid = parentAnn.userid ∧
      get_notification req0 selfReply "create" = none :=
  ⟨rfl, by decide, rfl,
    no_notification_for_self_reply req0 selfReply "create" "p1" parentAnn
      rfl (by decide) rfl⟩

/-- C1: end-to-end positive scenario: a reply by bob to a stored parent
authored by alice, with alice allowed to read the reply, document metadata
present on the reply, and an active reply subscription targeted at alice,
yields the fully populated notification, whose document is the reply's own
document metadata. -/
theorem notification_for_valid_reply (request : Request) (ann parent : Annot)
    (pid : String) (ua ub : User) (d : Document)
    (h1 : ann.parent_id = some pid)
    (h2 : request.fetch_ann pid = some parent)
    (h3 : parent.userid = "acct:alice@example.org")
    (h4 : ann.userid = "acct:bob@example.org")
    (h5 : request.get_user "acct:alice@example.org" = some ua)
    (h6 : request.get_user "acct:bob@example.org" = some ub)
    (h7 : ua ≠ ub)
    (h8 : request.has_permission ann parent.userid "read" = true)
    (h9 : ann.document = some d)
    (h10 : ∃ s ∈ request.subs, s.active = true ∧ s.type = "reply" ∧
      s.uri = "acct:alice@example.org") :
    get_notification request ann "create" =
      some (Notification.mk (some ann) (some ub) (some parent) (some ua)
        (some d)) := by
  rw [h3] at h8
  obtain ⟨t, ht⟩ :=
    find_active_reply_sub_isSome request.subs "acct:alice@example.org" h10
  unfold get_notification
  rw [if_neg (by simp : ¬ ("create" : String) ≠ "create")]
  simp [h1, h2, h3, h4, h5, h6, h7, h8, h9, ht]

theorem notification_for_valid_reply_witness :
    replyAnn.parent_id = some "p1" ∧
      req0.fetch_ann "p1" = some parentAnn ∧
      parentAnn.userid = "acct:alice@example.org" ∧
      replyAnn.userid = "acct:bob@example.org" ∧
      req0.get_user "acct:alice@example.org" = some alice ∧
      req0.get_user "acct:bob@example.org" = some bob ∧
      alice ≠ bob ∧
      req0.has_permission replyAnn parentAnn.userid "read" = true ∧
      replyAnn.document = some doc0 ∧
      (∃ s ∈ req0.subs, s.active = true ∧ s.type = "reply" ∧
        s.uri = "acct:alice@example.org") ∧
      get_notification req0 replyAnn "create" =
        some (Notification.mk (some replyAnn) (some bob) (some parentAnn)
          (some alice) (some doc0)) :=
  ⟨rfl, by decide, rfl, rfl, by decide, by decide, by decide, rfl, rfl,
    by decide,
    notification_for_valid_reply req0 replyAnn parentAnn "p1" alice bob doc0
      rfl (by decide) rfl rfl (by decide) (by decide) (by decide) rfl rfl
      (by decide)⟩

/-- C8: whenever `get_notification` returns a notification rather than
`none`, all five of its fields are populated: no partially built record is
observable from the result. -/
theorem returned_notification_fully_populated (request : Request)
    (ann : Annot) (action : String) (n : Notification)
    (h : get_notification request ann action = some n) :
    n.reply.isSome ∧ n.reply_user.isSome ∧ n.parent.isSome ∧
      n.parent_user.isSome ∧ n.document.isSome := by
  by_cases ha : action = "create"
  · subst ha
    unfold get_notification at h
    rw [if_neg (by simp : ¬ ("create" : String) ≠ "create")] at h
    cases hpid : ann.parent_id with
    | none => simp only [hpid] at h; exact Option.noConfusion h
    | some pid =>
      simp only [hpid] at h
      cases hpar : request.fetch_ann pid with
      | none => simp only [hpar] at h; exact Option.noConfusion h
      | some parent =>
        simp only [hpar] at h
        cases hpu : request.get_user parent.userid with
        | none => simp only [hpu] at h; exact Option.noConfusion h
        | some pu =>
          simp only [hpu] at h
          cases hru : request.get_user ann.userid with
          | none => simp only [hru] at h; exact Option.noConfusion h
          | some ru =>
            simp only [hru] at h
            by_cases hsame : pu = ru
            · rw [if_pos hsame] at h
              exact Option.noConfusion h
            · rw [if_neg hsame] at h
              by_cases hperm :
                  request.has_permission ann parent.userid "read" = true
              · rw [if_neg (by simp [hperm])] at h
                cases hd : ann.document with
                | none => simp only [hd] at h; exact Option.noConfusion h
                | some d =>
                  simp only [hd] at h
                  cases hsub :
                      find_active_reply_sub request.subs parent.userid with
                  | none => simp only [hsub] at h; exact Option.noConfusion h
                  | some t =>
                    simp only [hsub] at h
                    injection h with hn
                    subst hn
                    exact ⟨rfl, rfl, rfl, rfl, rfl⟩
              · rw [if_pos hperm] at h
                exact Option.noConfusion h
  · simp [get_notification, ha] at h

def notif0 : Notification :=
  Notification.mk (some replyAnn) (some bob) (some parentAnn) (some alice)
    (some doc0)

theorem returned_notification_fully_populated_witness :
    get_notification req0 replyAnn "create" = some notif0 ∧
      (notif0.reply.isSome ∧ notif0.reply_user.isSome ∧
        notif0.parent.isSome ∧ notif0.parent_user.isSome ∧
        notif0.document.isSome) :=
  ⟨by decide,
    returned_notification_fully_populated req0 replyAnn "create" notif0
      (by decide)⟩

/-- C6: the subscription created at registration targets
`acct:<username>@<request domain>`; if the user's stored authority differs
from the request domain, that target differs from the user's userid, and
the query `get_notification` performs on the userid finds nothing in a
registry holding only that subscription. -/
theorem registration_target_misses_userid (u : User) (d : String)
    (h : u.authority ≠ d) :
    ("acct:" ++ u.username ++ "@" ++ d) ≠ u.userid ∧
      find_active_reply_sub
        (registration_subscriptions [] (RegistrationEvent.mk u d))
        u.userid = none := by
  have hne : ("acct:" ++ u.username ++ "@" ++ d) ≠ u.userid := by
    intro hEq
    unfold User.userid at hEq
    exact h
      (string_prepend_cancel ("acct:" ++ u.username ++ "@") d u.authority
        hEq).symm
  refine ⟨hne, find_active_reply_sub_eq_none _ _ ?_⟩
  intro s hs
  simp only [registration_subscriptions, create_subscription,
    List.nil_append, List.mem_singleton] at hs
  subst hs
  rintro ⟨-, -, huri⟩
  exact hne huri

def dana : User := User.mk "dana" "partner.org"

theorem registration_target_misses_userid_witness :
    dana.authority ≠ "example.org" ∧
      (("acct:" ++ dana.username ++ "@" ++ "example.org") ≠ dana.userid ∧
        find_active_reply_sub
          (registration_subscriptions []
            (RegistrationEvent.mk dana "example.org"))
          dana.userid = none) :=
  ⟨by decide,
    registration_target_misses_userid dana "example.org" (by decide)⟩

end H
